import Mathlib

/-!
Verification of the Aarogya Setu prescription-digitization frontend.

The repository is a React single-page application whose pages hold local
state and render hard-coded mock data.  This file gives a shallow
embedding of the state-bearing logic of those pages — the DrugCheckerPage
drug-list state machine, the VaultPage compare selection, the client-side
router, and the MultiPrescriptionPage mock data — together with models of
the pairwise interaction engine that the accompanying design document
specifies but the source does not implement (those models carry a
`Modelled from the spec:` doc comment).  Theorems at the end of the file
settle the stated properties of each component.
-/

namespace Arogya

/-- An interaction record as held in the DEMO_INTERACTIONS constant of
src/src/main.jsx: a pair of drug names, a severity label and display text. -/
structure InteractionRecord where
  drug1 : String
  drug2 : String
  severity : String
  title : String
  description : String
  action : String
deriving DecidableEq, Repr

/-- The three hard-coded interaction records of src/src/main.jsx
(DEMO_INTERACTIONS, lines 14-39). -/
def DEMO_INTERACTIONS : List InteractionRecord :=
  [ { drug1 := "Metformin", drug2 := "Amlodipine", severity := "minor",
      title := "Minor Interaction",
      description := "Amlodipine may slightly increase blood sugar levels, potentially affecting Metformin\x27s effectiveness in controlling diabetes. Monitor blood sugar regularly.",
      action := "Inform your doctor at next visit. No immediate action required." },
    { drug1 := "Atorvastatin", drug2 := "Amlodipine", severity := "moderate",
      title := "Moderate Interaction",
      description := "Amlodipine can increase Atorvastatin blood levels by about 18%, potentially increasing the risk of muscle pain or weakness (myopathy). This combination is used but requires monitoring.",
      action := "Watch for unexplained muscle pain, tenderness, or weakness. Report to your doctor if symptoms appear." },
    { drug1 := "Pantoprazole", drug2 := "Metformin", severity := "minor",
      title := "Minor Interaction",
      description := "Pantoprazole may slightly increase Metformin plasma levels. In patients with normal kidney function, this is generally not clinically significant.",
      action := "No action needed for most patients. Kidney function monitoring advised for elderly patients." } ]

/-- The addDrug handler of DrugCheckerPage (src/src/main.jsx):
`if (!drugs.includes(name)) setDrugs([...drugs, name])`. -/
def addDrug (drugs : List String) (name : String) : List String :=
  if name ∈ drugs then drugs else drugs ++ [name]

/-- The removeDrug handler of DrugCheckerPage (src/src/main.jsx):
`setDrugs(drugs.filter((d) => d !== name))`. -/
def removeDrug (drugs : List String) (name : String) : List String :=
  drugs.filter (fun d => d ≠ name)

/-- The component state of DrugCheckerPage: the drugs list and the
checked flag.  `lastChecked` is a history variable recording the drugs
list at the most recent successful press of the Check button; it is not
part of the React state but is needed to state freshness of results. -/
structure CheckerState where
  drugs : List String
  checked : Bool
  lastChecked : List String
deriving DecidableEq, Repr

/-- The initial state of DrugCheckerPage:
`useState(["Metformin", "Amlodipine", "Pantoprazole", "Atorvastatin"])`
and `useState(false)` for checked. -/
def initialChecker : CheckerState :=
  { drugs := ["Metformin", "Amlodipine", "Pantoprazole", "Atorvastatin"],
    checked := false,
    lastChecked := [] }

/-- The user events DrugCheckerPage reacts to: adding a drug (suggestion
click or Enter key), removing a chip, and pressing the Check button. -/
inductive CheckerEvent where
  | add (name : String)
  | remove (name : String)
  | check
deriving DecidableEq, Repr

/-- One step of DrugCheckerPage.  addDrug and removeDrug both call
`setChecked(false)`; the Check button is `disabled={drugs.length < 2}`
and its onClick is `setChecked(true)`, so pressing it is a no-op unless
at least two drugs are listed. -/
def checkerStep (s : CheckerState) (e : CheckerEvent) : CheckerState :=
  match e with
  | .add name => { s with drugs := addDrug s.drugs name, checked := false }
  | .remove name => { s with drugs := removeDrug s.drugs name, checked := false }
  | .check =>
      if s.drugs.length ≥ 2 then
        { s with checked := true, lastChecked := s.drugs }
      else s

/-- The states DrugCheckerPage can reach from its initial state. -/
inductive CheckerReachable : CheckerState → Prop where
  | init : CheckerReachable initialChecker
  | step (s : CheckerState) (e : CheckerEvent) :
      CheckerReachable s → CheckerReachable (checkerStep s e)

/-- What the results section of DrugCheckerPage renders: the three
severity summary counts, the interaction cards, and whether the safe
banner is shown. -/
structure CheckerDisplay where
  criticalCount : Nat
  moderateCount : Nat
  minorCount : Nat
  records : List InteractionRecord
  safeBanner : Bool
deriving DecidableEq, Repr

/-- The constant results block of DrugCheckerPage: summary cards 0 / 1 / 2,
the DEMO_INTERACTIONS cards, and the safe banner, all rendered whenever
`checked` is true (src/src/main.jsx lines 297-321). -/
def fixedCheckerDisplay : CheckerDisplay :=
  { criticalCount := 0, moderateCount := 1, minorCount := 2,
    records := DEMO_INTERACTIONS, safeBanner := true }

/-- The results output of DrugCheckerPage as a function of its state:
`{checked && (<summary/cards/banner>)}` renders the fixed block when
checked and nothing otherwise. -/
def displayedResults (s : CheckerState) : Option CheckerDisplay :=
  if s.checked then some fixedCheckerDisplay else none

/-- The client-side router of App (src/unnamed/part_001, lines 12-19):
maps window.location.pathname to a page identifier, defaulting to home. -/
def getPage (path : String) : String :=
  if path = "/scan" then "scan"
  else if path = "/drug-checker" then "drug-checker"
  else if path = "/schedule" then "schedule"
  else if path = "/vault" then "vault"
  else if path = "/multi-prescription" then "multi-prescription"
  else "home"

/-- The five recognised paths of the router, in source order. -/
def knownPaths : List String :=
  ["/scan", "/drug-checker", "/schedule", "/vault", "/multi-prescription"]

/-- The six page identifiers the router can return. -/
def pageIds : List String :=
  ["scan", "drug-checker", "schedule", "vault", "multi-prescription", "home"]

/-- The toggleCompare handler of VaultPage (src/unnamed/part_002,
lines 156-162): deselect a selected id, otherwise select it only while
fewer than two are selected. -/
def toggleCompare (compareIds : List Nat) (id : Nat) : List Nat :=
  if id ∈ compareIds then compareIds.filter (fun c => c ≠ id)
  else if compareIds.length < 2 then compareIds ++ [id]
  else compareIds

/-- The compare selections VaultPage can reach from its initial
`useState([])` through toggleCompare calls. -/
inductive CompareReachable : List Nat → Prop where
  | init : CompareReachable []
  | step (l : List Nat) (id : Nat) :
      CompareReachable l → CompareReachable (toggleCompare l id)

/-- A medicine line of a prescription card in MultiPrescriptionPage
(src/src/main.jsx PRESCRIPTIONS). -/
structure Medicine where
  name : String
  dose : String
  freq : String
  slot : String
deriving DecidableEq, Repr

/-- A prescription of MultiPrescriptionPage (src/src/main.jsx,
PRESCRIPTIONS constant). -/
structure Prescription where
  id : Nat
  doctor : String
  specialty : String
  date : String
  color : String
  medicines : List Medicine
deriving DecidableEq, Repr

/-- The two hard-coded prescriptions of MultiPrescriptionPage. -/
def PRESCRIPTIONS : List Prescription :=
  [ { id := 1, doctor := "Dr. Ramesh Reddy", specialty := "Cardiologist",
      date := "Feb 25, 2026", color := "#00c8ff",
      medicines :=
        [ { name := "Amlodipine", dose := "5mg", freq := "OD", slot := "Night" },
          { name := "Atorvastatin", dose := "10mg", freq := "OD", slot := "Night" },
          { name := "Clopidogrel", dose := "75mg", freq := "OD", slot := "Morning" } ] },
    { id := 2, doctor := "Dr. Sunita Sharma", specialty := "Endocrinologist",
      date := "Feb 20, 2026", color := "#00ffb4",
      medicines :=
        [ { name := "Metformin", dose := "500mg", freq := "BD", slot := "Morning + Night" },
          { name := "Glimepiride", dose := "1mg", freq := "OD", slot := "Morning" },
          { name := "Pantoprazole", dose := "40mg", freq := "OD", slot := "Morning" } ] } ]

/-- A cross-prescription interaction of MultiPrescriptionPage
(src/src/main.jsx CROSS_INTERACTIONS, lines 1152-1162): the drug pair,
the prescriber label of each side, and the severity. -/
structure CrossInteraction where
  drug1 : String
  rx1 : String
  drug2 : String
  rx2 : String
  severity : String
  desc : String
  action : String
deriving DecidableEq, Repr

/-- The single hard-coded cross-prescription interaction. -/
def CROSS_INTERACTIONS : List CrossInteraction :=
  [ { drug1 := "Clopidogrel", rx1 := "Cardiologist",
      drug2 := "Pantoprazole", rx2 := "Endocrinologist",
      severity := "moderate",
      desc := "Pantoprazole reduces the antiplatelet effect of Clopidogrel by inhibiting CYP2C19. This combination may increase cardiac risk.",
      action := "Inform your cardiologist about the Pantoprazole prescription. An alternative PPI like Rabeprazole may be used." } ]

/-- A row of the merged schedule of MultiPrescriptionPage
(src/src/main.jsx MERGED_SCHEDULE, lines 1177-1189): drug, dose,
prescription colour, source doctor, and the optional warning flag. -/
structure MergedEntry where
  name : String
  dose : String
  color : String
  source : String
  flag : Option String
deriving DecidableEq, Repr

/-- The hard-coded merged schedule of MultiPrescriptionPage: slot name
paired with its entries, in source order. -/
def MERGED_SCHEDULE : List (String × List MergedEntry) :=
  [ ("Morning",
      [ { name := "Clopidogrel", dose := "75mg", color := "#00c8ff",
          source := "Dr. Ramesh Reddy", flag := none },
        { name := "Metformin", dose := "500mg", color := "#00ffb4",
          source := "Dr. Sunita Sharma", flag := none },
        { name := "Glimepiride", dose := "1mg", color := "#00ffb4",
          source := "Dr. Sunita Sharma", flag := none },
        { name := "Pantoprazole", dose := "40mg", color := "#00ffb4",
          source := "Dr. Sunita Sharma", flag := some "⚠️" } ]),
    ("Night",
      [ { name := "Amlodipine", dose := "5mg", color := "#00c8ff",
          source := "Dr. Ramesh Reddy", flag := none },
        { name := "Atorvastatin", dose := "10mg", color := "#00c8ff",
          source := "Dr. Ramesh Reddy", flag := none },
        { name := "Metformin", dose := "500mg", color := "#00ffb4",
          source := "Dr. Sunita Sharma", flag := none } ]) ]

/-- The slot buckets a medicine line lands in: the combined label
"Morning + Night" stands for both slots, any other label for itself. -/
def slotsOf (m : Medicine) : List String :=
  if m.slot = "Morning + Night" then ["Morning", "Night"] else [m.slot]

/-- The (drug name, dose, source doctor) triples a merge of PRESCRIPTIONS
puts into a given slot: one per medicine line per originating
prescription, tagged with that prescription, no deduplication. -/
def mergedTriples (prescriptions : List Prescription) (slot : String) :
    List (String × String × String) :=
  prescriptions.flatMap (fun rx =>
    (rx.medicines.filter (fun m => slot ∈ slotsOf m)).map
      (fun m => (m.name, m.dose, rx.doctor)))

/-- Whether a drug name participates in some cross-prescription
interaction of the CROSS_INTERACTIONS list. -/
def participatesInCross (name : String) : Bool :=
  CROSS_INTERACTIONS.any (fun c => c.drug1 = name || c.drug2 = name)

/-- Lowercasing of a drug name, character by character. -/
def lowerName (s : String) : String := String.mk (s.data.map Char.toLower)

/-- Whitespace test used for trimming drug names. -/
def isWs (c : Char) : Bool := c = ' ' || c = '\t' || c = '\n' || c = '\r'

/-- Trimming of surrounding whitespace from a drug name. -/
def trimName (s : String) : String :=
  String.mk (((s.data.dropWhile isWs).reverse.dropWhile isWs).reverse)

/-- Modelled from the spec: the engine of §3-§4 is not implemented in the
source (the UI hard-codes its output), so its normalization is taken from
§3, which keys drugs by name, case-insensitive and trimmed. -/
def normalize (s : String) : String := lowerName (trimName s)

/-- Modelled from the spec: §4.1 deduplicates the input drug set by
normalized identifier before pairing, keeping a stable traversal order. -/
def dedupNormalized (drugs : List String) : List String :=
  drugs.foldl (fun acc d =>
    let n := normalize d
    if n ∈ acc then acc else acc ++ [n]) []

/-- All unordered pairs of a list in the stable nested order i < j. -/
def pairs {α : Type} : List α → List (α × α)
  | [] => []
  | x :: xs => (xs.map (fun y => (x, y))) ++ pairs xs

/-- Severity tiers of the specified engine, including the
degraded-lookup marker tier. -/
inductive Severity where
  | critical
  | moderate
  | minor
  | unknown
deriving DecidableEq, Repr

/-- An interaction record of the specified engine: the normalized pair
and its severity tier. -/
structure EngineRecord where
  a : String
  b : String
  severity : Severity
deriving DecidableEq, Repr

/-- Outcome of one Knowledge Source query for a pair: no interaction, a
record, or a lookup failure. -/
inductive LookupOutcome where
  | noInteraction
  | found (r : EngineRecord)
  | failed
deriving Repr

/-- The external Knowledge Source: maps an ordered rendering of an
unordered pair to a lookup outcome. -/
def KnowledgeSource : Type := String → String → LookupOutcome

/-- Modelled from the spec: the Pair Resolver of §4.1, absent from the
source.  Deduplicates by normalized identifier, enumerates all unordered
pairs in stable order, queries the Knowledge Source once per pair; a
failed lookup surfaces as an unknown-tier record rather than being
dropped. -/
def resolve (ks : KnowledgeSource) (drugs : List String) : List EngineRecord :=
  (pairs (dedupNormalized drugs)).flatMap (fun p =>
    match ks p.1 p.2 with
    | .noInteraction => []
    | .found r => [r]
    | .failed => [{ a := p.1, b := p.2, severity := .unknown }])

/-- Count of records in a given severity tier. -/
def countSeverity (sev : Severity) (records : List EngineRecord) : Nat :=
  records.countP (fun r => r.severity == sev)

/-- Stable severity-descending display order: critical, moderate, minor,
unknown, preserving the resolver order within each tier. -/
def sortBySeverity (records : List EngineRecord) : List EngineRecord :=
  records.filter (fun r => r.severity == .critical) ++
  records.filter (fun r => r.severity == .moderate) ++
  records.filter (fun r => r.severity == .minor) ++
  records.filter (fun r => r.severity == .unknown)

/-- The aggregate of one check: per-tier counts, the ordered record
list, and the no-critical-findings safe-flag. -/
structure AggregateResult where
  criticalCount : Nat
  moderateCount : Nat
  minorCount : Nat
  unknownCount : Nat
  records : List EngineRecord
  safe : Bool
deriving DecidableEq, Repr

/-- Modelled from the spec: the Severity Aggregator of §4.2, absent from
the source.  The safe-flag asserts that no finding is critical and no
lookup was left unresolved. -/
def aggregate (records : List EngineRecord) : AggregateResult :=
  { criticalCount := countSeverity .critical records,
    moderateCount := countSeverity .moderate records,
    minorCount := countSeverity .minor records,
    unknownCount := countSeverity .unknown records,
    records := sortBySeverity records,
    safe := records.all (fun r => !(r.severity == .critical) && !(r.severity == .unknown)) }

/-- An interaction record annotated with provenance: whether it crosses
prescription boundaries, and the source labels of both sides. -/
structure AnnotatedInteraction where
  record : EngineRecord
  crossSource : Bool
  sources1 : List String
  sources2 : List String
deriving DecidableEq, Repr

/-- Modelled from the spec: one step of the Provenance Tracker of §4.3,
absent from the source.  Looks up the source sets of both drugs and
marks the record cross-source exactly when they are disjoint. -/
def annotateOne (prov : String → List String) (r : EngineRecord) : AnnotatedInteraction :=
  let s1 := prov r.a
  let s2 := prov r.b
  { record := r,
    crossSource := s1.all (fun x => !(s2.contains x)),
    sources1 := s1,
    sources2 := s2 }

/-- Modelled from the spec: the Provenance Tracker of §4.3 applied to a
record list. -/
def annotate (records : List EngineRecord) (prov : String → List String) :
    List AnnotatedInteraction :=
  records.map (annotateOne prov)

/-- The provenance map induced by the PRESCRIPTIONS constant: a drug is
attributed to the specialty label of every prescription listing it
(these are the rx1/rx2 labels shown by CROSS_INTERACTIONS). -/
def provenanceOf (prescriptions : List Prescription) (name : String) : List String :=
  (prescriptions.filter (fun rx => rx.medicines.any (fun m => m.name == name))).map
    (fun rx => rx.specialty)

/-- The engine-level record corresponding to the single hard-coded
cross-prescription interaction of MultiPrescriptionPage. -/
def crossRecord : EngineRecord :=
  { a := "Clopidogrel", b := "Pantoprazole", severity := .moderate }

/-- The Morning bucket of the hard-coded MERGED_SCHEDULE. -/
def morningSlotEntries : List MergedEntry :=
  ((MERGED_SCHEDULE.find? (fun p => p.1 == "Morning")).map (fun p => p.2)).getD []

/-- The Night bucket of the hard-coded MERGED_SCHEDULE. -/
def nightSlotEntries : List MergedEntry :=
  ((MERGED_SCHEDULE.find? (fun p => p.1 == "Night")).map (fun p => p.2)).getD []

theorem addDrug_nodup (l : List String) (name : String) (h : l.Nodup) :
    (addDrug l name).Nodup := by
  unfold addDrug
  split
  · exact h
  · rename_i hn
    exact h.append (List.nodup_singleton name) (by
      intro a ha hb
      simp only [List.mem_singleton] at hb
      subst hb
      exact hn ha)

theorem removeDrug_nodup (l : List String) (name : String) (h : l.Nodup) :
    (removeDrug l name).Nodup :=
  h.filter _

theorem checker_drugs_nodup (s : CheckerState) (h : CheckerReachable s) :
    s.drugs.Nodup := by
  induction h with
  | init => decide
  | step s e _ ih =>
    cases e with
    | add name => exact addDrug_nodup _ _ ih
    | remove name => exact removeDrug_nodup _ _ ih
    | check =>
      simp only [checkerStep]
      split
      · exact ih
      · exact ih

theorem checker_checked_min_two (s : CheckerState) (h : CheckerReachable s) :
    s.checked = true → 2 ≤ s.drugs.length := by
  induction h with
  | init => intro _; decide
  | step s e _ ih =>
    cases e with
    | add name => intro hc; simp [checkerStep] at hc
    | remove name => intro hc; simp [checkerStep] at hc
    | check =>
      simp only [checkerStep]
      split
      · rename_i hlen
        intro _
        exact hlen
      · exact ih

theorem checker_fresh (s : CheckerState) (h : CheckerReachable s) :
    s.checked = true → s.drugs = s.lastChecked := by
  induction h with
  | init => intro hc; simp [initialChecker] at hc
  | step s e _ ih =>
    cases e with
    | add name => intro hc; simp [checkerStep] at hc
    | remove name => intro hc; simp [checkerStep] at hc
    | check =>
      simp only [checkerStep]
      split
      · intro _; rfl
      · exact ih

theorem compare_inv (l : List Nat) (h : CompareReachable l) :
    l.length ≤ 2 ∧ l.Nodup := by
  induction h with
  | init => exact ⟨by decide, List.nodup_nil⟩
  | step l id _ ih =>
    obtain ⟨hlen, hnd⟩ := ih
    unfold toggleCompare
    split
    · exact ⟨le_trans (List.length_filter_le _ _) hlen, hnd.filter _⟩
    · split
      · rename_i hmem hlt
        refine ⟨?_, hnd.append (List.nodup_singleton id) ?_⟩
        · simp only [List.length_append, List.length_singleton]
          omega
        · intro a ha hb
          simp only [List.mem_singleton] at hb
          subst hb
          exact hmem ha
      · exact ⟨hlen, hnd⟩

theorem pairs_short {α : Type} (l : List α) (h : l.length < 2) : pairs l = [] := by
  cases l with
  | nil => rfl
  | cons x xs =>
    cases xs with
    | nil => rfl
    | cons y ys => simp at h; omega

/-- C1: once a check has been run (the checked flag is set), the
displayed severity summary (0 critical, 1 moderate, 2 minor), the
displayed interaction records (the three DEMO_INTERACTIONS), and the
safe banner are identical for any two checker states, whatever drugs
either state holds: the results output does not depend on the drug set. -/
theorem checker_results_independent_of_drug_list (s₁ s₂ : CheckerState)
    (h₁ : s₁.checked = true) (h₂ : s₂.checked = true) :
    displayedResults s₁ = displayedResults s₂ ∧
    displayedResults s₁ = some { criticalCount := 0, moderateCount := 1, minorCount := 2,
                                 records := DEMO_INTERACTIONS, safeBanner := true } := by
  constructor
  · simp [displayedResults, h₁, h₂]
  · simp [displayedResults, h₁, fixedCheckerDisplay]

/-- Witness for C1: two checked states with different drug lists display
the same results. -/
theorem checker_results_independent_witness :
    displayedResults { drugs := ["Aspirin", "Warfarin"], checked := true,
                       lastChecked := ["Aspirin", "Warfarin"] } =
    displayedResults { drugs := ["Metformin", "Amlodipine", "Pantoprazole"], checked := true,
                       lastChecked := ["Metformin", "Amlodipine", "Pantoprazole"] } :=
  (checker_results_independent_of_drug_list _ _ rfl rfl).1

/-- C2: the safe-flag invariant.  For the page as shipped, whenever a
result is displayed the safe banner is shown and the displayed critical
count is zero (no unknown tally exists in the mock); for the
spec-modelled aggregator, the safe-flag is true exactly when the
critical count and the unknown count are both zero. -/
theorem safe_flag_iff_no_critical_no_unknown :
    (∀ s r, displayedResults s = some r → r.safeBanner = true ∧ r.criticalCount = 0) ∧
    (∀ records, (aggregate records).safe = true ↔
      (aggregate records).criticalCount = 0 ∧ (aggregate records).unknownCount = 0) := by
  constructor
  · intro s r h
    unfold displayedResults at h
    split at h
    · cases h
      exact ⟨rfl, rfl⟩
    · cases h
  · intro records
    simp only [aggregate, countSeverity, List.all_eq_true, List.countP_eq_zero,
      Bool.and_eq_true, Bool.not_eq_true', beq_eq_false_iff_ne, beq_iff_eq, ne_eq]
    constructor
    · intro h
      exact ⟨fun r hr => (h r hr).1, fun r hr => (h r hr).2⟩
    · intro h r hr
      exact ⟨h.1 r hr, h.2 r hr⟩

/-- Witness for C2: the fixed display satisfies the invariant, and the
modelled aggregate of one moderate record has a true safe-flag with zero
critical and unknown counts. -/
theorem safe_flag_witness :
    (fixedCheckerDisplay.safeBanner = true ∧ fixedCheckerDisplay.criticalCount = 0) ∧
    (aggregate [crossRecord]).safe = true :=
  ⟨safe_flag_iff_no_critical_no_unknown.1
      { drugs := [], checked := true, lastChecked := [] } fixedCheckerDisplay rfl,
   (safe_flag_iff_no_critical_no_unknown.2 [crossRecord]).mpr (by decide)⟩

/-- C3: with fewer than two drugs no check can run — in every reachable
checker state with fewer than two drugs nothing is displayed, so the
safe banner is unset and no claim of safety is made — and the
spec-modelled resolver returns the empty list for a deduplicated input
of size below two rather than failing. -/
theorem small_drug_set_no_results :
    (∀ s, CheckerReachable s → s.drugs.length < 2 → displayedResults s = none) ∧
    (∀ (ks : KnowledgeSource) (drugs : List String),
      (dedupNormalized drugs).length < 2 → resolve ks drugs = []) := by
  constructor
  · intro s hs hlen
    unfold displayedResults
    split
    · rename_i hc
      have := checker_checked_min_two s hs hc
      omega
    · rfl
  · intro ks drugs h
    unfold resolve
    rw [pairs_short _ h]
    rfl

/-- Witness for C3: removing three of the four initial drugs leaves a
reachable one-drug state that displays nothing, and the resolver on a
one-drug input returns the empty list even when every lookup fails. -/
theorem small_drug_set_witness :
    displayedResults
      (checkerStep (checkerStep (checkerStep initialChecker
        (CheckerEvent.remove ("Metformin"))) (CheckerEvent.remove ("Amlodipine")))
        (CheckerEvent.remove ("Pantoprazole"))) = none ∧
    resolve (fun _ _ => LookupOutcome.failed) ["Aspirin"] = [] :=
  ⟨small_drug_set_no_results.1 _
      (CheckerReachable.step _ _ (CheckerReachable.step _ _
        (CheckerReachable.step _ _ CheckerReachable.init))) (by decide),
   small_drug_set_no_results.2 _ ["Aspirin"] (by decide)⟩

/-- C4: the spec-modelled provenance tracker marks a record cross-source
exactly when the source sets of its two drugs are disjoint; on the
provenance induced by PRESCRIPTIONS (Clopidogrel from the Cardiologist,
Pantoprazole from the Endocrinologist) the hard-coded cross interaction
is flagged cross-source with both labels attached, and a record whose
two drugs share a source is not flagged. -/
theorem cross_source_flag_correct :
    (∀ (prov : String → List String) (r : EngineRecord),
      (annotateOne prov r).crossSource = true ↔ ∀ x ∈ prov r.a, x ∉ prov r.b) ∧
    annotate [crossRecord] (provenanceOf PRESCRIPTIONS) =
      [{ record := crossRecord, crossSource := true,
         sources1 := ["Cardiologist"], sources2 := ["Endocrinologist"] }] ∧
    (annotateOne (fun _ => ["Rx1"])
      { a := "DrugA", b := "DrugB", severity := .moderate }).crossSource = false := by
  refine ⟨?_, by decide, by decide⟩
  intro prov r
  simp [annotateOne, List.all_eq_true, decide_eq_true_iff]

/-- Witness for C4: the disjointness criterion applied at the concrete
PRESCRIPTIONS provenance and the Clopidogrel-Pantoprazole record. -/
theorem cross_source_flag_witness :
    (annotateOne (provenanceOf PRESCRIPTIONS) crossRecord).crossSource = true :=
  (cross_source_flag_correct.1 (provenanceOf PRESCRIPTIONS) crossRecord).mpr (by decide)

/-- C5 counterexample: the claim that every merged-schedule entry whose
drug participates in a cross-source interaction carries a conflict flag
fails at the Clopidogrel Morning entry — Clopidogrel participates in the
hard-coded cross-source interaction, yet its entry has no flag. -/
theorem merged_schedule_flag_counterexample :
    ({ name := "Clopidogrel", dose := "75mg", color := "#00c8ff",
       source := "Dr. Ramesh Reddy", flag := none } : MergedEntry) ∈ morningSlotEntries ∧
    participatesInCross ("Clopidogrel") = true ∧
    (∀ e ∈ morningSlotEntries, e.name = "Clopidogrel" → e.flag = none) := by
  decide

/-- C5 (amended): each merged slot bucket holds exactly one entry per
(drug, originating prescription) with the source doctor attached and no
cross-prescription deduplication; the merged Morning slot contains both
the Clopidogrel and Pantoprazole entries, and the Pantoprazole entry —
but not the Clopidogrel one — carries the conflict flag. -/
theorem merged_schedule_amended :
    morningSlotEntries.map (fun e => (e.name, e.dose, e.source)) =
      mergedTriples PRESCRIPTIONS ("Morning") ∧
    nightSlotEntries.map (fun e => (e.name, e.dose, e.source)) =
      mergedTriples PRESCRIPTIONS ("Night") ∧
    ({ name := "Clopidogrel", dose := "75mg", color := "#00c8ff",
       source := "Dr. Ramesh Reddy", flag := none } : MergedEntry) ∈ morningSlotEntries ∧
    ({ name := "Pantoprazole", dose := "40mg", color := "#00ffb4",
       source := "Dr. Sunita Sharma", flag := some "⚠️" } : MergedEntry) ∈ morningSlotEntries := by
  decide

/-- C6: the drugs list has set semantics — adding an already-present
name leaves the list unchanged, addDrug and removeDrug both preserve the
no-duplicates invariant, and every reachable checker state has a
duplicate-free drugs list. -/
theorem drug_set_semantics :
    (∀ (l : List String) (name : String), name ∈ l → addDrug l name = l) ∧
    (∀ (l : List String) (name : String), l.Nodup → (addDrug l name).Nodup) ∧
    (∀ (l : List String) (name : String), l.Nodup → (removeDrug l name).Nodup) ∧
    (∀ s, CheckerReachable s → s.drugs.Nodup) := by
  refine ⟨?_, addDrug_nodup, removeDrug_nodup, checker_drugs_nodup⟩
  intro l name h
  simp [addDrug, h]

/-- Witness for C6: re-adding a listed drug is a no-op and adding a new
drug to a duplicate-free list keeps it duplicate-free. -/
theorem drug_set_semantics_witness :
    addDrug ["Metformin", "Amlodipine"] ("Metformin") = ["Metformin", "Amlodipine"] ∧
    (addDrug ["Metformin"] ("Aspirin")).Nodup :=
  ⟨drug_set_semantics.1 _ _ (by decide), drug_set_semantics.2.1 _ _ (by decide)⟩

/-- C7 counterexample: drug names are not keyed case-insensitively —
"metformin" and "Metformin" normalize to the same key, yet adding
"metformin" to a list already holding "Metformin" creates a second
entry. -/
theorem case_insensitive_key_counterexample :
    normalize ("metformin") = normalize ("Metformin") ∧
    addDrug ["Metformin"] ("metformin") = ["Metformin", "metformin"] := by
  decide

/-- C7 (amended): addDrug keys drugs by exact string equality — any name
not literally present in the list, including one differing from a listed
drug only in letter case or surrounding whitespace, is appended as a new
distinct entry. -/
theorem addDrug_exact_string_match (l : List String) (name : String) (h : name ∉ l) :
    addDrug l name = l ++ [name] := by
  simp [addDrug, h]

/-- Witness for C7: adding the lowercase variant of a listed drug
appends it as a second entry. -/
theorem addDrug_exact_string_match_witness :
    addDrug ["Metformin"] ("metformin") = ["Metformin"] ++ ["metformin"] :=
  addDrug_exact_string_match _ _ (by decide)

/-- C8: results are never shown for a modified drug list — adding or
removing a drug always resets the checked flag, and in every reachable
state in which results are displayed the drugs list equals the list at
the last successful press of the Check button. -/
theorem results_never_stale :
    (∀ s name, (checkerStep s (CheckerEvent.add name)).checked = false) ∧
    (∀ s name, (checkerStep s (CheckerEvent.remove name)).checked = false) ∧
    (∀ s, CheckerReachable s → s.checked = true → s.drugs = s.lastChecked) :=
  ⟨fun _ _ => rfl, fun _ _ => rfl, checker_fresh⟩

/-- Witness for C8: adding a drug to the initial state leaves checked
false, and after pressing Check on the initial state the drugs list
equals the list recorded at that press. -/
theorem results_never_stale_witness :
    (checkerStep initialChecker (CheckerEvent.add ("Aspirin"))).checked = false ∧
    (checkerStep initialChecker CheckerEvent.check).drugs =
      (checkerStep initialChecker CheckerEvent.check).lastChecked :=
  ⟨results_never_stale.1 initialChecker ("Aspirin"),
   results_never_stale.2.2 _ (CheckerReachable.step _ _ CheckerReachable.init) (by decide)⟩

/-- C9: the vault compare selection never exceeds two entries and never
holds duplicates in any reachable state; toggleCompare deselects a
selected id, appends an unselected id only while fewer than two are
selected, and is a no-op on an unselected id once two are selected. -/
theorem compare_selection_invariant :
    (∀ l, CompareReachable l → l.length ≤ 2 ∧ l.Nodup) ∧
    (∀ (l : List Nat) (id : Nat), id ∈ l → id ∉ toggleCompare l id) ∧
    (∀ (l : List Nat) (id : Nat), id ∉ l → l.length < 2 → toggleCompare l id = l ++ [id]) ∧
    (∀ (l : List Nat) (id : Nat), id ∉ l → 2 ≤ l.length → toggleCompare l id = l) := by
  refine ⟨compare_inv, ?_, ?_, ?_⟩
  · intro l id h
    simp [toggleCompare, h, List.mem_filter]
  · intro l id h hlt
    simp [toggleCompare, h, hlt]
  · intro l id h hge
    unfold toggleCompare
    rw [if_neg h, if_neg (by omega)]

/-- Witness for C9: a singleton selection reached by one toggle is within
bounds and duplicate-free; deselection, bounded selection, and the
full-selection no-op at concrete inputs. -/
theorem compare_selection_witness :
    ((toggleCompare [] 1).length ≤ 2 ∧ (toggleCompare [] 1).Nodup) ∧
    (1 : Nat) ∉ toggleCompare [1, 2] 1 ∧
    toggleCompare [1] 2 = [1] ++ [2] ∧
    toggleCompare [1, 2] 3 = [1, 2] :=
  ⟨compare_selection_invariant.1 _ (CompareReachable.step _ 1 CompareReachable.init),
   compare_selection_invariant.2.1 _ _ (by decide),
   compare_selection_invariant.2.2.1 _ _ (by decide) (by decide),
   compare_selection_invariant.2.2.2 _ _ (by decide) (by decide)⟩

/-- C10: the router is total with home as the default — every path maps
to one of the six page identifiers, and any path other than the five
known ones maps to home. -/
theorem router_total_default_home (path : String) :
    getPage path ∈ pageIds ∧ (path ∉ knownPaths → getPage path = "home") := by
  constructor
  · unfold getPage pageIds
    split_ifs <;> simp
  · intro h
    simp only [knownPaths, List.mem_cons, List.not_mem_nil, or_false, not_or] at h
    obtain ⟨h1, h2, h3, h4, h5⟩ := h
    simp [getPage, h1, h2, h3, h4, h5]

/-- Witness for C10: an unknown path is routed to a valid page, namely
home. -/
theorem router_total_default_home_witness :
    getPage ("/nonexistent") ∈ pageIds ∧ getPage ("/nonexistent") = "home" :=
  ⟨(router_total_default_home ("/nonexistent")).1,
   (router_total_default_home ("/nonexistent")).2 (by decide)⟩

end Arogya
